import Mathlib

/-!
Verification development for the St Johns Park tennis-court monitor
(`github_runner.py`). The Python methods of `GitHubCourtMonitor` are
shallowly embedded as pure Lean functions; external effects (session
initialisation, SMTP delivery, state-file reads/writes) are threaded as
explicit boolean oracles and explicit state values.
-/

set_option autoImplicit false
set_option maxRecDepth 8192

/-! ## Python string primitives used by the source -/

/-- The ASCII whitespace characters stripped by Python's `str.strip()`. -/
def pyIsSpace (c : Char) : Bool :=
  c == ' ' || c == '\t' || c == '\n' || c == '\r' || c == '\x0b' || c == '\x0c'

/-- Python `str.strip()`: remove leading and trailing whitespace. -/
def pyStrip (s : String) : String :=
  ⟨((s.data.dropWhile pyIsSpace).reverse.dropWhile pyIsSpace).reverse⟩

/-- Python `str.lower()` (ASCII fragment, which covers every label the
source manipulates). -/
def pyLower (s : String) : String :=
  ⟨s.data.map Char.toLower⟩

/-- Does `pat` occur at the start of `l`? (Boolean, by direct recursion.) -/
def listHasPre : List Char → List Char → Bool
  | [], _ => true
  | _ :: _, [] => false
  | p :: ps, c :: cs => p == c && listHasPre ps cs

/-- Does `pat` occur anywhere inside `l`? Embeds Python's `pat in s`. -/
def listHasSub : List Char → List Char → Bool
  | [], pat => listHasPre pat []
  | c :: t, pat => listHasPre pat (c :: t) || listHasSub t pat

/-- Boolean substring test on strings (Python `sub in s`). -/
def containsStrB (s sub : String) : Bool :=
  listHasSub s.data sub.data

/-- Propositional substring occurrence: `sub` occurs in `s`. -/
def ContainsStr (s sub : String) : Prop :=
  ∃ a b : String, s = a ++ (sub ++ b)

/-- Splitter on a (nonempty) separator, Python `str.split(sep)`
semantics: non-overlapping matches scanned left to right. The fuel is
an upper bound on the scanned length, making the recursion structural. -/
def pySplitAux (sep : List Char) : Nat → List Char → List Char → List (List Char)
  | 0, l, acc => [acc.reverse ++ l]
  | _ + 1, [], acc => [acc.reverse]
  | fuel + 1, c :: rest, acc =>
    if listHasPre sep (c :: rest) then
      acc.reverse :: pySplitAux sep fuel (List.drop (sep.length - 1) rest) []
    else pySplitAux sep fuel rest (c :: acc)

/-- Python `s.split(sep)` for a nonempty separator. -/
def pySplit (s sep : String) : List String :=
  (pySplitAux sep.data (s.data.length + 1) s.data []).map String.mk

/-- Join a list of strings with a separator (Python `sep.join`). -/
def pyJoin (sep : String) : List String → String
  | [] => ""
  | [x] => x
  | x :: xs => x ++ sep ++ pyJoin sep xs

/-- Python `str.replace(pat, repl)`: replace every non-overlapping
occurrence, scanning left to right. -/
def pyReplace (s pat repl : String) : String :=
  pyJoin repl (pySplit s pat)

/-- A digit run as accepted by Python's `int()`: digits optionally
separated by single underscores, starting and ending with a digit. -/
def digitsUnders : List Char → Bool
  | [] => false
  | [c] => c.isDigit
  | c :: '_' :: rest => c.isDigit && digitsUnders rest
  | c :: d :: rest => c.isDigit && digitsUnders (d :: rest)

/-- Decimal value of the digit characters of a list (underscores skipped). -/
def digitsToNat (cs : List Char) : Nat :=
  cs.foldl (fun a c => if c.isDigit then 10 * a + (c.toNat - 48) else a) 0

/-- Python `int(s)` for decimal strings: surrounding whitespace ignored,
optional sign, digits with optional single underscores; `none` models a
raised `ValueError`. -/
def pyInt? (s : String) : Option Int :=
  let t := pyStrip s
  match t.data with
  | '+' :: cs => if digitsUnders cs then some (digitsToNat cs) else none
  | '-' :: cs => if digitsUnders cs then some (-(digitsToNat cs : Int)) else none
  | cs => if digitsUnders cs then some (digitsToNat cs) else none

/-! ## Date parsing and weekday arithmetic

`is_weekend` calls `datetime.strptime(date_str, '%Y-%m-%d')`.  CPython's
`_strptime` matches `%Y` against exactly four digits and `%m`, `%d`
against one or two digits (values 1..12 and 1..31), requires the whole
string to be consumed, and `datetime` then validates the day against the
month length and requires year ≥ 1. -/

/-- Value of a nonempty all-digit string, `none` otherwise. -/
def digitsVal? (s : String) : Option Nat :=
  if s ≠ "" ∧ s.data.all Char.isDigit then
    some (s.data.foldl (fun a c => 10 * a + (c.toNat - 48)) 0)
  else none

/-- Proleptic-Gregorian leap-year test (as used by `datetime`). -/
def leapYear (y : Nat) : Bool :=
  y % 4 == 0 && (!(y % 100 == 0) || y % 400 == 0)

/-- Length of month `m` of year `y` (1-based months). -/
def daysInMonth (y m : Nat) : Nat :=
  if m = 2 then (if leapYear y then 29 else 28)
  else if m = 4 ∨ m = 6 ∨ m = 9 ∨ m = 11 then 30
  else 31

/-- Days in all years before year `y` (proleptic Gregorian). -/
def daysBeforeYear (y : Nat) : Nat :=
  365 * (y - 1) + (y - 1) / 4 + (y - 1) / 400 - (y - 1) / 100

/-- Days in the months of year `y` strictly before month `m`. -/
def daysBeforeMonth (y m : Nat) : Nat :=
  ((List.range (m - 1)).map (fun k => daysInMonth y (k + 1))).foldl (fun a b => a + b) 0

/-- `date.toordinal()`: day number with 0001-01-01 ↦ 1. -/
def dateOrdinal (y m d : Nat) : Nat :=
  daysBeforeYear y + daysBeforeMonth y m + d

/-- Python `date.weekday()`: 0 = Monday, …, 5 = Saturday, 6 = Sunday. -/
def pyWeekday (y m d : Nat) : Nat :=
  (dateOrdinal y m d + 6) % 7

/-- `datetime.strptime(s, '%Y-%m-%d')` followed by date validation:
exactly four year digits, one or two month and day digits, whole string
consumed, calendar-valid Gregorian date. `none` models `ValueError`. -/
def parse_ymd (s : String) : Option (Nat × Nat × Nat) :=
  match pySplit s "-" with
  | [ys, ms, ds] =>
    match digitsVal? ys, digitsVal? ms, digitsVal? ds with
    | some y, some m, some d =>
      if ys.length = 4 ∧ ms.length ≤ 2 ∧ ds.length ≤ 2 ∧
          1 ≤ y ∧ 1 ≤ m ∧ m ≤ 12 ∧ 1 ≤ d ∧ d ≤ daysInMonth y m
      then some (y, m, d) else none
    | _, _, _ => none
  | _ => none

/-- Modelled from the spec: a strict ISO `YYYY-MM-DD` parse — exactly
four year digits and exactly two (zero-padded) month and day digits,
denoting a valid Gregorian date. Used only to compare the spec's
"parses as an ISO YYYY-MM-DD date" wording against the code's parser. -/
def specIsoParse (s : String) : Option (Nat × Nat × Nat) :=
  match pySplit s "-" with
  | [ys, ms, ds] =>
    match digitsVal? ys, digitsVal? ms, digitsVal? ds with
    | some y, some m, some d =>
      if ys.length = 4 ∧ ms.length = 2 ∧ ds.length = 2 ∧
          1 ≤ y ∧ 1 ≤ m ∧ m ≤ 12 ∧ 1 ≤ d ∧ d ≤ daysInMonth y m
      then some (y, m, d) else none
    | _, _, _ => none
  | _ => none

/-! ## `GitHubCourtMonitor` time classification -/

/-- `GitHubCourtMonitor.is_weekend`: true when the string parses under
`'%Y-%m-%d'` and the weekday is Saturday (5) or Sunday (6); any parse
failure is caught and yields `false`. -/
def is_weekend (date_str : String) : Bool :=
  match parse_ymd date_str with
  | some (y, m, d) => pyWeekday y m d == 5 || pyWeekday y m d == 6
  | none => false

/-- `GitHubCourtMonitor.get_time_range_for_date`:
`(min_hour, max_hour, description)` for the date's day type. -/
def get_time_range_for_date (date_str : String) : Int × Int × String :=
  if is_weekend date_str then (9, 22, "Available (9am-10pm)")
  else (17, 24, "Evening (after 5pm)")

/-- `GitHubCourtMonitor.parse_time_to_hour`: extract the hour in
24-hour form from `'18:00'` / `'8pm'` / `'8am'` style labels, `-1` when
parsing fails. -/
def parse_time_to_hour (time_str : String) : Int :=
  let time_lower := pyStrip (pyLower time_str)
  if containsStrB time_lower "pm" then
    match pyInt? (pyStrip (pyReplace time_lower "pm" "")) with
    | some hour => if hour ≠ 12 then hour + 12 else hour
    | none => -1
  else if containsStrB time_lower "am" then
    match pyInt? (pyStrip (pyReplace time_lower "am" "")) with
    | some hour => if hour = 12 then 0 else hour
    | none => -1
  else
    match pyInt? ((pySplit time_lower ":").headD "") with
    | some hour => hour
    | none => -1

/-! ## Slots and the filtering loop of `run_check` -/

/-- A bookable slot as reported in the Summary's `available_slots`. -/
structure Slot where
  date : String
  time : String
  court : String
deriving DecidableEq, Repr

/-- The identifier `f"{slot['date']}_{slot['time']}_{slot['court']}"`. -/
def slotId (s : Slot) : String :=
  s.date ++ "_" ++ s.time ++ "_" ++ s.court

/-- The filtering loop of `run_check` (lines 354-368): keep a slot when
its parsed hour is not `-1` and lies in `[min_hour, max_hour)` for its
date's day type. -/
def filterSlots (available : List Slot) : List Slot :=
  available.filter fun slot =>
    let tr := get_time_range_for_date slot.date
    let hour := parse_time_to_hour slot.time
    decide (hour ≠ -1 ∧ tr.1 ≤ hour ∧ hour < tr.2.1)

/-! ## De-duplication state (`load_notified_slots` / `save_notified_slots`)

The state file `notified_slots.json` is modelled as
`Option (List String)` (`none` = file absent).  `readOk` / `writeOk`
oracles stand for absence of I/O exceptions; both methods swallow their
exceptions, so a failed read degrades to the empty set and a failed
write leaves the file unchanged. -/

/-- `GitHubCourtMonitor.load_notified_slots`: `set(json.load(f))` when
the file exists and reading succeeds, otherwise the empty set. -/
def load_notified_slots (readOk : Bool) (disk : Option (List String)) : Finset String :=
  match disk with
  | some ids => if readOk then ids.toFinset else ∅
  | none => ∅

/-- `GitHubCourtMonitor.save_notified_slots`: overwrite the file with
the identifier list of `slots`; on an exception the error is logged and
the file keeps its previous content. Returns the resulting file. -/
def save_notified_slots (writeOk : Bool) (slots : List Slot) (disk : Option (List String)) :
    Option (List String) :=
  if writeOk then some (slots.map slotId) else disk

/-- Result of the diff step of `run_check` (lines 392-398). -/
structure DiffResult where
  newIds : Finset String
  newSlots : List Slot
deriving DecidableEq

/-- The diff step of `run_check`: identifiers of the filtered slots,
minus the previously notified ones; `newSlots` are the filtered slots
whose identifier is new. -/
def diffStep (filtered : List Slot) (previously_notified : Finset String) : DiffResult :=
  let current_slot_ids := (filtered.map slotId).toFinset
  let new_slot_ids := current_slot_ids \ previously_notified
  ⟨new_slot_ids, filtered.filter (fun s => decide (slotId s ∈ new_slot_ids))⟩

/-- The diff-and-persist portion of `run_check` (lines 392-418) on a
given Summary `available_slots` list and state file, with I/O
succeeding: load the previous identifiers, diff, and overwrite the
state file with the current filtered identifiers. -/
def diffAndPersist (available : List Slot) (disk : Option (List String)) :
    DiffResult × Option (List String) :=
  let filtered := filterSlots available
  (diffStep filtered (load_notified_slots true disk),
   save_notified_slots true filtered disk)

/-! ## Notification delivery -/

/-- Email configuration drawn from the environment; `none` models an
unset variable (Python `os.getenv` returning `None`). -/
structure Config where
  email_user : Option String
  email_password : Option String
  notification_email : Option String
deriving DecidableEq

/-- Python truthiness of an optional string: `None` and `""` are falsy. -/
def optTruthyStr : Option String → Bool
  | none => false
  | some s => !(s == "")

/-- Outcome of one `send_notification` call. -/
inductive SendOutcome where
  | skipped
  | sent
  | failed
deriving DecidableEq, Repr

/-- `GitHubCourtMonitor.send_notification`: when any of
`{email_user, email_password, notification_email}` is falsy, log a
warning and return `False` without attempting delivery; otherwise
attempt delivery, returning `True` on success and — every exception
being caught — `False` on failure. `deliveryOk` is the SMTP oracle;
the `Bool` component is the Python return value. -/
def send_notification (cfg : Config) (deliveryOk : Bool) (_subject _body : String) :
    SendOutcome × Bool :=
  if !(optTruthyStr cfg.email_user && optTruthyStr cfg.email_password &&
        optTruthyStr cfg.notification_email) then
    (SendOutcome.skipped, false)
  else if deliveryOk then (SendOutcome.sent, true)
  else (SendOutcome.failed, false)

/-! ## `format_availability_email` and its local helpers -/

/-- Local helper `get_section_title` of `format_availability_email`. -/
def get_section_title (slots : List Slot) (prefixLabel : String) : String :=
  if slots = [] then prefixLabel ++ " Slots"
  else
    let has_weekday := slots.any (fun s => !is_weekend s.date)
    let has_weekend := slots.any (fun s => is_weekend s.date)
    if has_weekday && has_weekend then prefixLabel ++ " Slots"
    else if has_weekend then prefixLabel ++ " Slots (Weekend 9am-10pm)"
    else prefixLabel ++ " Slots (Weekday After 5pm)"

/-- English day names as produced by `strftime('%A')` in the C locale. -/
def dayNames : List String :=
  ["Monday", "Tuesday", "Wednesday", "Thursday", "Friday", "Saturday", "Sunday"]

/-- Local helper `weekday_name`: the `%A` name of a `YYYY-MM-DD` date,
`''` when parsing fails. -/
def weekday_name (date_str : String) : String :=
  match parse_ymd date_str with
  | some (y, m, d) => dayNames.getD (pyWeekday y m d) ""
  | none => ""

/-- `s.isdigit()` for ASCII strings: nonempty and all digits. -/
def pyIsDigitStr (s : String) : Bool :=
  !(s == "") && s.data.all Char.isDigit

/-- Local helper `time_sort_key`: lenient minutes-since-midnight key. -/
def time_sort_key (t : String) : Int :=
  let tl := pyLower (pyStrip t)
  let is_am := containsStrB tl "am"
  let is_pm := containsStrB tl "pm"
  let tl2 := pyStrip (pyReplace (pyReplace tl "am" "") "pm" "")
  if containsStrB tl2 ":" then
    let parts := pySplit tl2 ":"
    match pyInt? (parts.headD "") with
    | none => 0
    | some hour0 =>
      let minute : Int :=
        if parts.length > 1 ∧ pyIsDigitStr (parts.getD 1 "") then
          match pyInt? (parts.getD 1 "") with
          | some mv => mv
          | none => 0
        else 0
      let hour1 := if is_pm && hour0 ≠ 12 then hour0 + 12 else hour0
      let hour2 := if is_am && hour1 = 12 then 0 else hour1
      hour2 * 60 + minute
  else
    let digs := tl2.data.filter Char.isDigit
    let hour0 : Int := if digs ≠ [] then (digitsToNat digs : Int) else 0
    let hour1 := if is_pm && hour0 ≠ 12 then hour0 + 12 else hour0
    let hour2 := if is_am && hour1 = 12 then 0 else hour1
    hour2 * 60

/-- Python `str.title()` (ASCII fragment): uppercase a letter after a
non-letter, lowercase a letter after a letter. -/
def pyTitleAux : List Char → Bool → List Char
  | [], _ => []
  | c :: cs, prevAlpha =>
    (if c.isAlpha then (if prevAlpha then c.toLower else c.toUpper) else c)
      :: pyTitleAux cs c.isAlpha

/-- Python `str.title()`. -/
def pyTitle (s : String) : String :=
  ⟨pyTitleAux s.data false⟩

/-- `s['court'].replace('_', ' ').title()`. -/
def courtLabel (s : Slot) : String :=
  pyTitle (pyReplace s.court "_" " ")

/-- Stable insertion of a slot into a list sorted on `time_sort_key`
(after all entries of smaller-or-equal key, as Python's stable sort). -/
def insertByTime (x : Slot) : List Slot → List Slot
  | [] => [x]
  | y :: ys =>
    if time_sort_key y.time ≤ time_sort_key x.time then y :: insertByTime x ys
    else x :: y :: ys

/-- `sorted(slots, key=lambda x: time_sort_key(x.get('time', '0:00')))`. -/
def sortByTime (slots : List Slot) : List Slot :=
  slots.foldl (fun acc s => insertByTime s acc) []

/-- Insertion of a string into an ascending list (Python `sorted`). -/
def insertStr (x : String) : List String → List String
  | [] => [x]
  | y :: ys => if decide (x < y) then x :: y :: ys else y :: insertStr x ys

/-- `sorted` on strings (ascending lexicographic). -/
def sortStrings (l : List String) : List String :=
  l.foldl (fun acc s => insertStr s acc) []

/-- First-occurrence deduplication (dict-key semantics). -/
def dedupAux : List String → List String → List String
  | [], _ => []
  | x :: xs, seen =>
    if seen.contains x then dedupAux xs seen else x :: dedupAux xs (x :: seen)

/-- First-occurrence deduplication of a string list. -/
def dedupStr (l : List String) : List String :=
  dedupAux l []

/-- The `by_date` grouping used by every section: bucket slots by their
(truthy) date and emit the buckets in sorted date order. -/
def groupByDate (slots : List Slot) : List (String × List Slot) :=
  let ds := sortStrings (dedupStr ((slots.filter (fun s => !(s.date == ""))).map Slot.date))
  ds.map (fun d => (d, slots.filter (fun s => s.date == d)))

/-- A plain (non-highlighted) slot pill, as used in the "new" and
"all slots" sections. -/
def slotPillPlain (s : Slot) : String :=
  "<span style='display:inline-block;margin:4px 6px 0 0;padding:6px 10px;border:1px solid #e6e8eb;border-radius:999px;background:#ffffff;font-size:13px;color:#101828;'>"
    ++ s.time ++ " • " ++ courtLabel s ++ "</span>"

/-- One per-date card of the "new" and "all slots" sections. -/
def dateGroupPlain (d : String) (slots : List Slot) : String :=
  let sorted := sortByTime slots
  let count := sorted.length
  let dow := weekday_name d
  "<div style='border:1px solid #e6e8eb;border-radius:8px;margin:10px 0;overflow:hidden;'>"
    ++ "<div style='background:#f8fafc;padding:10px 12px;border-bottom:1px solid #eef2f7;display:flex;align-items:center;justify-content:space-between;'>"
    ++ "<div style='font-size:14px;color:#101828;font-weight:600;'>" ++ d ++ " (" ++ dow ++ ")</div>"
    ++ "<div style='font-size:12px;color:#475467;background:#e6f4ff;border:1px solid #cfe5ff;border-radius:999px;padding:2px 8px;'>"
    ++ Nat.repr count ++ " slot" ++ (if count ≠ 1 then "s" else "") ++ "</div>"
    ++ "</div>"
    ++ "<div style='padding:10px 12px;'>"
    ++ String.join (sorted.map slotPillPlain)
    ++ "</div></div>"

/-- The "New … Slots" section (h3 plus per-date cards). -/
def newSectionHtml (new_slots : List Slot) : String :=
  "\n              <h3 style=\"margin:20px 0 8px 0;font-size:16px;color:#101828;\">"
    ++ get_section_title new_slots "New" ++ "</h3>\n            "
    ++ String.join ((groupByDate new_slots).map (fun p => dateGroupPlain p.1 p.2))

/-- A pill of the "all filtered" section, highlighted when new. -/
def slotPillFiltered (new_ids : Finset String) (s : Slot) : String :=
  let sid := slotId s
  let is_new := decide (sid ∈ new_ids)
  let pill_bg := if is_new then "#e8f7ee" else "#ffffff"
  let pill_border := if is_new then "#86efac" else "#e6e8eb"
  let pill_color := if is_new then "#065f46" else "#101828"
  "<span style='display:inline-block;margin:4px 6px 0 0;padding:6px 10px;border:1px solid "
    ++ pill_border ++ ";border-radius:999px;background:" ++ pill_bg
    ++ ";font-size:13px;color:" ++ pill_color ++ ";'>"
    ++ s.time ++ " • " ++ courtLabel s ++ "</span>"

/-- One per-date card of the "all filtered" section (slot and new-count
badges, highlighted pills). -/
def dateGroupFiltered (new_ids : Finset String) (d : String) (slots : List Slot) : String :=
  let sorted := sortByTime slots
  let count := sorted.length
  let dow := weekday_name d
  let new_count := (sorted.filter (fun s => decide (slotId s ∈ new_ids))).length
  "<div style='border:1px solid #e6e8eb;border-radius:8px;margin:10px 0;overflow:hidden;'>"
    ++ "<div style='background:#f8fafc;padding:10px 12px;border-bottom:1px solid #eef2f7;display:flex;align-items:center;justify-content:space-between;'>"
    ++ "<div style='font-size:14px;color:#101828;font-weight:600;'>" ++ d ++ " (" ++ dow ++ ")</div>"
    ++ "<div>"
    ++ "<span style='display:inline-block;margin-left:6px;font-size:12px;color:#475467;background:#e6f4ff;border:1px solid #cfe5ff;border-radius:999px;padding:2px 8px;'>"
    ++ Nat.repr count ++ " slot" ++ (if count ≠ 1 then "s" else "") ++ "</span>"
    ++ "<span style='display:inline-block;margin-left:6px;font-size:12px;color:#155e2b;background:#dcfce7;border:1px solid #bbf7d0;border-radius:999px;padding:2px 8px;'>"
    ++ Nat.repr new_count ++ " new</span>"
    ++ "</div>"
    ++ "</div>"
    ++ "<div style='padding:10px 12px;'>"
    ++ String.join (sorted.map (slotPillFiltered new_ids))
    ++ "</div></div>"

/-- The "All … Slots" filtered section (h3 plus per-date cards). -/
def filteredSectionHtml (new_ids : Finset String) (all_filtered_slots : List Slot) : String :=
  "\n              <h3 style=\"margin:20px 0 8px 0;font-size:16px;color:#101828;\">"
    ++ get_section_title all_filtered_slots "All" ++ "</h3>\n            "
    ++ String.join
        ((groupByDate all_filtered_slots).map (fun p => dateGroupFiltered new_ids p.1 p.2))

/-- The booking call-to-action block (emitted at the end of the
"all filtered" section, lines 281-286 of the source). -/
def ctaHtml : String :=
  "\n              <p style=\"margin: 18px 0;\">\n                <a href=\"https://tennistowerhamlets.com/book/courts/st-johns-park\" \n                   style=\"display:inline-block;background-color:#0d6efd;color:#ffffff;padding:10px 16px;text-decoration:none;border-radius:6px;font-weight:600;\">Book Now</a>\n              </p>\n            "

/-- The document opening up to (excluding) the `Checked at: ` label. -/
def hdrPrefix : String :=
  "\n        <html>\n        <head>\n            <meta charset=\"UTF-8\" />\n        </head>\n        <body style=\"margin:0;padding:24px;background-color:#f5f7fb;font-family:-apple-system,BlinkMacSystemFont,Segoe UI,Roboto,Helvetica,Arial,sans-serif;\">\n          <div style=\"max-width:640px;margin:0 auto;background:#ffffff;border:1px solid #e6e8eb;border-radius:8px;box-shadow:0 2px 6px rgba(16,24,40,.08);overflow:hidden;\">\n            <div style=\"background:#0d6efd;color:#ffffff;padding:16px 20px;\">\n              <h2 style=\"margin:0;font-size:20px;\">St Johns Park Tennis Court Availability</h2>\n              <div style=\"margin-top:4px;font-size:12px;opacity:.95;\">"

/-- The rest of the header block after the timestamp. -/
def hdrAfterTs : String :=
  "</div>\n            </div>\n            <div style=\"padding:20px;\">\n        "

/-- The header block of the email; the source interpolates
`Checked at: {timestamp}` into the block. -/
def emailHeader (timestamp : String) : String :=
  hdrPrefix ++ ("Checked at: " ++ timestamp) ++ hdrAfterTs

/-- The closing block of the email (footer line included). -/
def emailFooter : String :=
  "\n            </div>\n            <div style=\"padding:12px 20px;border-top:1px solid #e6e8eb;background:#fafbfc;color:#667085;font-size:12px;\">\n              Automated check via GitHub Actions\n            </div>\n          </div>\n        </body>\n        </html>\n        "

/-- Contribution of `if new_slots:` (nothing when the list is falsy). -/
def newPart : List Slot → String
  | [] => ""
  | ns => newSectionHtml ns

/-- Contribution of `if all_filtered_slots:` — the section followed by
the booking call-to-action, or nothing when the list is falsy. -/
def filteredPart (new_ids : Finset String) : List Slot → String
  | [] => ""
  | fs => filteredSectionHtml new_ids fs ++ ctaHtml

/-- The "All Available Slots" unfiltered section. -/
def allSectionHtml (all_slots : List Slot) : String :=
  "\n              <h3 style=\"margin:20px 0 8px 0;font-size:16px;color:#101828;\">All Available Slots</h3>\n            "
    ++ String.join ((groupByDate all_slots).map (fun p => dateGroupPlain p.1 p.2))

/-- Contribution of `if all_slots:` — `None` and `[]` are both falsy. -/
def allPart : Option (List Slot) → String
  | none => ""
  | some [] => ""
  | some sl => allSectionHtml sl

/-- `GitHubCourtMonitor.format_availability_email` with the run
timestamp passed explicitly (the source reads `datetime.now()`). -/
def format_availability_email (timestamp : String) (new_slots all_filtered_slots : List Slot)
    (all_slots : Option (List Slot)) : String :=
  let new_ids := (new_slots.map slotId).toFinset
  emailHeader timestamp ++ newPart new_slots
    ++ filteredPart new_ids all_filtered_slots
    ++ allPart all_slots ++ emailFooter

/-! ## The run driver `run_check` -/

/-- Observable outcome of one `run_check` invocation: the returned
flag, the filtered and new slot lists, the new identifier set, the
state file after the run, the email composed (if any), and the
`send_notification` call made (if any). -/
structure RunResult where
  success : Bool
  filtered : List Slot
  newSlots : List Slot
  newIds : Finset String
  diskAfter : Option (List String)
  email : Option (String × String)
  sendAttempt : Option (SendOutcome × Bool)

/-- `GitHubCourtMonitor.run_check`: session initialisation failure
aborts with `False`; otherwise filter the Summary's available slots,
diff against the persisted identifiers, always overwrite the state
file, and send one notification exactly when new slots were found. -/
def run_check (ts : String) (cfg : Config) (sessionOk readOk writeOk deliveryOk : Bool)
    (available_slots : List Slot) (disk : Option (List String)) : RunResult :=
  if sessionOk then
    let filtered_slots := filterSlots available_slots
    let dr := diffStep filtered_slots (load_notified_slots readOk disk)
    let diskAfter := save_notified_slots writeOk filtered_slots disk
    if dr.newSlots = [] then
      ⟨true, filtered_slots, dr.newSlots, dr.newIds, diskAfter, none, none⟩
    else
      let new_filtered_slots := dr.newSlots
      let weekday_count := (new_filtered_slots.filter (fun s => !is_weekend s.date)).length
      let weekend_count := (new_filtered_slots.filter (fun s => is_weekend s.date)).length
      let subject :=
        if weekday_count > 0 && weekend_count > 0 then
          Nat.repr new_filtered_slots.length ++ " New Tennis Courts Available at St Johns Park!"
        else if weekend_count > 0 then
          Nat.repr new_filtered_slots.length
            ++ " New Tennis Courts Available (Weekend 9am-10pm) at St Johns Park!"
        else
          Nat.repr new_filtered_slots.length
            ++ " New Tennis Courts Available (After 5pm) at St Johns Park!"
      let body := format_availability_email ts new_filtered_slots filtered_slots
          (some available_slots)
      ⟨true, filtered_slots, new_filtered_slots, dr.newIds, diskAfter,
        some (subject, body), some (send_notification cfg deliveryOk subject body)⟩
  else ⟨false, [], [], ∅, disk, none, none⟩

/-! ## Literal decompositions used by the containment proofs -/

/-- `ctaHtml` up to (excluding) the `Book Now` label. -/
def ctaPre : String :=
  "\n              <p style=\"margin: 18px 0;\">\n                <a href=\"https://tennistowerhamlets.com/book/courts/st-johns-park\" \n                   style=\"display:inline-block;background-color:#0d6efd;color:#ffffff;padding:10px 16px;text-decoration:none;border-radius:6px;font-weight:600;\">"

/-- `ctaHtml` after the `Book Now` label. -/
def ctaPost : String :=
  "</a>\n              </p>\n            "

/-- `ctaHtml` up to (excluding) the booking URL. -/
def ctaUrlPre : String :=
  "\n              <p style=\"margin: 18px 0;\">\n                <a href=\""

/-- `ctaHtml` after the booking URL. -/
def ctaUrlPost : String :=
  "\" \n                   style=\"display:inline-block;background-color:#0d6efd;color:#ffffff;padding:10px 16px;text-decoration:none;border-radius:6px;font-weight:600;\">Book Now</a>\n              </p>\n            "

/-- The `<h3>` opening of the "All Available Slots" heading. -/
def allTitlePre : String :=
  "\n              <h3 style=\"margin:20px 0 8px 0;font-size:16px;color:#101828;\">"

/-- The close of the "All Available Slots" heading. -/
def allTitlePost : String :=
  "</h3>\n            "

/-- `emailFooter` up to (excluding) the footer message. -/
def footPre : String :=
  "\n            </div>\n            <div style=\"padding:12px 20px;border-top:1px solid #e6e8eb;background:#fafbfc;color:#667085;font-size:12px;\">\n              "

/-- `emailFooter` after the footer message. -/
def footPost : String :=
  "\n            </div>\n          </div>\n        </body>\n        </html>\n        "

/-! ## String-append and substring lemmas -/

theorem strAppendAssoc (a b c : String) : a ++ b ++ c = a ++ (b ++ c) := by
  cases a with
  | mk la =>
    cases b with
    | mk lb =>
      cases c with
      | mk lc =>
        show String.mk (la ++ lb ++ lc) = String.mk (la ++ (lb ++ lc))
        rw [List.append_assoc]

theorem strAppendEmpty (s : String) : s ++ "" = s := by
  cases s with
  | mk l =>
    show String.mk (l ++ []) = String.mk l
    rw [List.append_nil]

theorem containsStr_triple (a sub b : String) : ContainsStr (a ++ sub ++ b) sub :=
  ⟨a, b, strAppendAssoc a sub b⟩

theorem ContainsStr.appendRight {s sub : String} (t : String) (h : ContainsStr s sub) :
    ContainsStr (s ++ t) sub := by
  obtain ⟨x, y, rfl⟩ := h
  exact ⟨x, y ++ t, by rw [strAppendAssoc, strAppendAssoc]⟩

theorem ContainsStr.appendLeft {s sub : String} (t : String) (h : ContainsStr s sub) :
    ContainsStr (t ++ s) sub := by
  obtain ⟨x, y, rfl⟩ := h
  exact ⟨t ++ x, y, (strAppendAssoc t x (sub ++ y)).symm⟩

theorem listHasPre_iff : ∀ (pat l : List Char), listHasPre pat l = true ↔ ∃ r, l = pat ++ r
  | [], l => by simp [listHasPre]
  | _ :: _, [] => by simp [listHasPre]
  | p :: ps, c :: cs => by
    simp only [listHasPre, Bool.and_eq_true, beq_iff_eq, listHasPre_iff ps cs,
      List.cons_append, List.cons.injEq]
    constructor
    · rintro ⟨rfl, r, rfl⟩
      exact ⟨r, rfl, rfl⟩
    · rintro ⟨r, rfl, rfl⟩
      exact ⟨rfl, r, rfl⟩

theorem listHasSub_iff : ∀ (l pat : List Char),
    listHasSub l pat = true ↔ ∃ a b, l = a ++ (pat ++ b)
  | [], pat => by
    simp only [listHasSub, listHasPre_iff]
    constructor
    · rintro ⟨r, hr⟩
      exact ⟨[], r, hr⟩
    · rintro ⟨a, b, hab⟩
      rcases a with _ | ⟨x, xs⟩
      · exact ⟨b, hab⟩
      · exact absurd hab (by simp)
  | c :: t, pat => by
    simp only [listHasSub, Bool.or_eq_true, listHasPre_iff, listHasSub_iff t pat]
    constructor
    · rintro (⟨r, hr⟩ | ⟨a, b, rfl⟩)
      · exact ⟨[], r, hr⟩
      · exact ⟨c :: a, b, rfl⟩
    · rintro ⟨a, b, hab⟩
      rcases a with _ | ⟨x, xs⟩
      · exact Or.inl ⟨b, hab⟩
      · rw [List.cons_append] at hab
        cases hab
        exact Or.inr ⟨xs, b, rfl⟩

theorem string_data_append (a b : String) : (a ++ b).data = a.data ++ b.data := by
  cases a with
  | mk la => cases b with
    | mk lb => rfl

theorem ContainsStr_iff (s sub : String) : ContainsStr s sub ↔ containsStrB s sub = true := by
  constructor
  · rintro ⟨a, b, rfl⟩
    unfold containsStrB
    rw [listHasSub_iff]
    exact ⟨a.data, b.data, by rw [string_data_append, string_data_append]⟩
  · intro h
    obtain ⟨la, lb, hd⟩ := (listHasSub_iff s.data sub.data).mp h
    refine ⟨⟨la⟩, ⟨lb⟩, ?_⟩
    cases s with
    | mk ls =>
      show String.mk ls = String.mk (la ++ (sub.data ++ lb))
      exact congrArg String.mk hd

/-! ## Claim theorems -/

/-- C4: `parse_time_to_hour` maps `"8pm"` to 20, `"12pm"` to 12,
`"12am"` to 0, `"18:00"` to 18, and the unparseable `"bogus"` to the
sentinel `-1`; and generally it converts every 12-hour label `"Npm"` /
`"Nam"` (`1 ≤ N ≤ 12`) to its 24-hour hour, with `12pm = 12` and
`12am = 0`. -/
theorem parse_time_to_hour_spec :
    parse_time_to_hour "8pm" = 20 ∧ parse_time_to_hour "12pm" = 12 ∧
    parse_time_to_hour "12am" = 0 ∧ parse_time_to_hour "18:00" = 18 ∧
    parse_time_to_hour "bogus" = -1 ∧
    (∀ n : Fin 12,
      parse_time_to_hour (Nat.repr (n.val + 1) ++ "pm")
          = (if n.val + 1 = 12 then 12 else (n.val + 1 : Int) + 12) ∧
      parse_time_to_hour (Nat.repr (n.val + 1) ++ "am")
          = (if n.val + 1 = 12 then 0 else (n.val + 1 : Int))) := by
  refine ⟨by decide, by decide, by decide, by decide, by decide, ?_⟩
  intro n
  fin_cases n <;> exact ⟨by decide, by decide⟩

/-- C1: a slot of the Summary's available list is kept by the
filtering step of `run_check` iff its parsed hour is not the `-1`
sentinel and lies in `[min_hour, max_hour)`, where the bounds are
`(9, 22)` on weekend dates and `(17, 24)` on weekday dates. -/
theorem run_check_keeps_slot_iff (available : List Slot) (slot : Slot) :
    slot ∈ filterSlots available ↔
      slot ∈ available ∧ parse_time_to_hour slot.time ≠ -1 ∧
        (if is_weekend slot.date then ((9 : Int), (22 : Int)) else (17, 24)).1
            ≤ parse_time_to_hour slot.time ∧
        parse_time_to_hour slot.time
            < (if is_weekend slot.date then ((9 : Int), (22 : Int)) else (17, 24)).2 := by
  unfold filterSlots get_time_range_for_date
  rw [List.mem_filter]
  by_cases hw : is_weekend slot.date <;> simp [hw, and_assoc]

/-- C2: running the diff-and-persist step of `run_check` twice on the
identical Summary yields no new identifiers and no new slots on the
second run, and leaves the persisted state of the first run unchanged. -/
theorem diffAndPersist_idempotent (available : List Slot) (disk : Option (List String)) :
    (diffAndPersist available (diffAndPersist available disk).2).1.newIds = ∅ ∧
    (diffAndPersist available (diffAndPersist available disk).2).1.newSlots = [] ∧
    (diffAndPersist available (diffAndPersist available disk).2).2
        = (diffAndPersist available disk).2 := by
  refine ⟨?_, ?_, rfl⟩
  · show ((filterSlots available).map slotId).toFinset
        \ ((filterSlots available).map slotId).toFinset = ∅
    exact Finset.sdiff_self _
  · show (filterSlots available).filter
        (fun s => decide (slotId s ∈ ((filterSlots available).map slotId).toFinset
          \ ((filterSlots available).map slotId).toFinset)) = []
    rw [Finset.sdiff_self]
    simp

/-- C3: after a successful run with a successful state write, the
persisted file holds exactly the identifiers of the current run's
filtered slots — a full replacement whose value is independent of the
previous state and of whether anything new was found — and loading it
back yields exactly that identifier set. -/
theorem run_check_full_replacement (ts : String) (cfg : Config) (readOk deliveryOk : Bool)
    (available : List Slot) (disk : Option (List String)) :
    (run_check ts cfg true readOk true deliveryOk available disk).diskAfter
        = some ((filterSlots available).map slotId) ∧
    load_notified_slots true
        (run_check ts cfg true readOk true deliveryOk available disk).diskAfter
        = ((filterSlots available).map slotId).toFinset := by
  constructor
  · dsimp only [run_check]
    rw [if_pos rfl]
    split <;> rfl
  · dsimp only [run_check]
    rw [if_pos rfl]
    split <;> rfl

/-- C5: whenever `run_check` finds no new filtered slots, it composes
no email and makes no `send_notification` call, whatever the filtered
list, the Summary and the rest of the inputs are. -/
theorem run_check_no_new_no_send (ts : String) (cfg : Config)
    (sessionOk readOk writeOk deliveryOk : Bool) (available : List Slot)
    (disk : Option (List String))
    (h : (run_check ts cfg sessionOk readOk writeOk deliveryOk available disk).newSlots = []) :
    (run_check ts cfg sessionOk readOk writeOk deliveryOk available disk).sendAttempt = none ∧
    (run_check ts cfg sessionOk readOk writeOk deliveryOk available disk).email = none := by
  cases sessionOk with
  | false => exact ⟨rfl, rfl⟩
  | true =>
    dsimp only [run_check] at h ⊢
    rw [if_pos rfl] at h ⊢
    split at h
    · next hnew =>
      rw [if_pos hnew]
      exact ⟨rfl, rfl⟩
    · next hnew =>
      dsimp only at h
      exact absurd h hnew

/-- Witness for C5 at a concrete input with no new slots. -/
theorem run_check_no_new_no_send_witness :
    (run_check "t" ⟨none, none, none⟩ true true true true [] none).newSlots = [] ∧
    (run_check "t" ⟨none, none, none⟩ true true true true [] none).sendAttempt = none := by
  have h0 : (run_check "t" ⟨none, none, none⟩ true true true true [] none).newSlots = [] := rfl
  exact ⟨h0, (run_check_no_new_no_send "t" ⟨none, none, none⟩ true true true true [] none h0).1⟩

/-- C7: `send_notification` skips the send attempt and returns the
failure value when any of sender, credential or recipient is unset; and
a delivery failure is returned as the failure value rather than raised
(the function is total and yields `false`). -/
theorem send_notification_spec (cfg : Config) (deliveryOk : Bool) (subject body : String) :
    ((cfg.email_user = none ∨ cfg.email_password = none ∨ cfg.notification_email = none) →
      send_notification cfg deliveryOk subject body = (SendOutcome.skipped, false)) ∧
    (deliveryOk = false → (send_notification cfg deliveryOk subject body).2 = false) := by
  constructor
  · intro h
    obtain ⟨u, p, r⟩ := cfg
    rcases h with rfl | rfl | rfl <;> simp [send_notification, optTruthyStr]
  · intro h
    subst h
    dsimp only [send_notification]
    split
    · rfl
    · rfl

/-- Witness for C7 at a concrete incomplete configuration. -/
theorem send_notification_spec_witness :
    send_notification ⟨none, some "p", some "r"⟩ false "s" "b" = (SendOutcome.skipped, false) :=
  (send_notification_spec ⟨none, some "p", some "r"⟩ false "s" "b").1 (Or.inl rfl)

/-- C9: `format_availability_email` treats an absent (`None`) optional
all-slots argument exactly like an empty one — the function is total,
the two calls return the same HTML, the all-slots contribution is the
empty string in both cases, and on a concrete empty input the rendered
HTML has no "All Available Slots" section. -/
theorem format_email_optional_allslots (timestamp : String)
    (new_slots all_filtered_slots : List Slot) :
    format_availability_email timestamp new_slots all_filtered_slots none
        = format_availability_email timestamp new_slots all_filtered_slots (some []) ∧
    allPart none = "" ∧ allPart (some []) = "" ∧
    containsStrB (format_availability_email "t" [] [] none) "All Available Slots" = false := by
  exact ⟨rfl, rfl, rfl, by decide⟩

/-- C10: a failing state-file write is swallowed inside
`save_notified_slots` (the file keeps its old content and no exception
escapes), and `run_check` still returns success when the check itself
succeeded: its returned flag never depends on the write outcome. -/
theorem save_failure_keeps_success (ts : String) (cfg : Config) (readOk deliveryOk : Bool)
    (available : List Slot) (disk : Option (List String)) :
    (run_check ts cfg true readOk false deliveryOk available disk).success = true ∧
    (run_check ts cfg true readOk false deliveryOk available disk).diskAfter = disk ∧
    (∀ sessionOk : Bool,
      (run_check ts cfg sessionOk readOk false deliveryOk available disk).success
        = (run_check ts cfg sessionOk readOk true deliveryOk available disk).success) ∧
    save_notified_slots false (filterSlots available) disk = disk := by
  refine ⟨?_, ?_, ?_, rfl⟩
  · dsimp only [run_check]
    rw [if_pos rfl]
    split <;> rfl
  · dsimp only [run_check]
    rw [if_pos rfl]
    split <;> rfl
  · intro sessionOk
    cases sessionOk with
    | false => rfl
    | true =>
      dsimp only [run_check]
      rw [if_pos rfl, if_pos rfl]
      split <;> rfl

/-- C6 counterexample: with an empty filtered list (here together with
no new slots and no all-day list) the rendered email contains no
booking call-to-action at all — the `Book Now` block is emitted inside
the `if all_filtered_slots:` branch only — refuting the claim that the
output is followed by a booking call-to-action link for every input. -/
theorem format_email_cta_counterexample :
    ¬ ContainsStr (format_availability_email "2025-10-12 00:00:00 UTC" [] [] none)
        "Book Now" := by
  rw [ContainsStr_iff]
  decide

/-- C6 (amended): for every input the rendered email contains the
header with its timestamp and the footer; the "New … Slots" heading is
rendered whenever the new-slots list is nonempty, the all-filtered
"All … Slots" heading whenever the filtered list is nonempty, and the
"All Available Slots" heading whenever the all-day list is present and
nonempty; the booking call-to-action link and its URL follow the
all-filtered section whenever the filtered list is nonempty; and with
an empty filtered list the output is exactly the header, the new
section, the all-slots section and the footer — no booking-link block
is emitted. -/
theorem format_email_structure (timestamp : String) (new_slots all_filtered_slots : List Slot)
    (all_slots : Option (List Slot)) :
    ContainsStr (format_availability_email timestamp new_slots all_filtered_slots all_slots)
        ("Checked at: " ++ timestamp) ∧
    ContainsStr (format_availability_email timestamp new_slots all_filtered_slots all_slots)
        "Automated check via GitHub Actions" ∧
    (new_slots ≠ [] →
      ContainsStr (format_availability_email timestamp new_slots all_filtered_slots all_slots)
          (get_section_title new_slots "New")) ∧
    (∀ (a : Slot) (l : List Slot), all_slots = some (a :: l) →
      ContainsStr (format_availability_email timestamp new_slots all_filtered_slots all_slots)
          "All Available Slots") ∧
    (all_filtered_slots ≠ [] →
      ContainsStr (format_availability_email timestamp new_slots all_filtered_slots all_slots)
          (get_section_title all_filtered_slots "All") ∧
      ContainsStr (format_availability_email timestamp new_slots all_filtered_slots all_slots)
          "Book Now" ∧
      ContainsStr (format_availability_email timestamp new_slots all_filtered_slots all_slots)
          "https://tennistowerhamlets.com/book/courts/st-johns-park") ∧
    (all_filtered_slots = [] →
      format_availability_email timestamp new_slots all_filtered_slots all_slots
        = emailHeader timestamp ++ newPart new_slots ++ allPart all_slots ++ emailFooter) := by
  refine ⟨?_, ?_, ?_, ?_, ?_, ?_⟩
  · have hh : ContainsStr (emailHeader timestamp) ("Checked at: " ++ timestamp) :=
      containsStr_triple hdrPrefix ("Checked at: " ++ timestamp) hdrAfterTs
    exact (((hh.appendRight _).appendRight _).appendRight _).appendRight _
  · have he : emailFooter = footPre ++ "Automated check via GitHub Actions" ++ footPost := rfl
    have hf : ContainsStr emailFooter "Automated check via GitHub Actions" := by
      rw [he]; exact containsStr_triple _ _ _
    exact hf.appendLeft _
  · intro hns
    rcases new_slots with _ | ⟨n0, ns⟩
    · exact absurd rfl hns
    · have hsec : ContainsStr (newSectionHtml (n0 :: ns))
          (get_section_title (n0 :: ns) "New") :=
        (containsStr_triple _ _ _).appendRight _
      exact (((hsec.appendLeft _).appendRight _).appendRight _).appendRight _
  · intro a l heq
    subst heq
    have hall : ContainsStr (allSectionHtml (a :: l)) "All Available Slots" := by
      have he : allSectionHtml (a :: l)
          = (allTitlePre ++ "All Available Slots" ++ allTitlePost)
            ++ String.join ((groupByDate (a :: l)).map (fun p => dateGroupPlain p.1 p.2)) := rfl
      rw [he]
      exact (containsStr_triple _ _ _).appendRight _
    exact (hall.appendLeft _).appendRight _
  · intro hfs
    have hc1 : ContainsStr ctaHtml "Book Now" := by
      have he : ctaHtml = ctaPre ++ "Book Now" ++ ctaPost := rfl
      rw [he]; exact containsStr_triple _ _ _
    have hc2 : ContainsStr ctaHtml
        "https://tennistowerhamlets.com/book/courts/st-johns-park" := by
      have he : ctaHtml = ctaUrlPre
          ++ "https://tennistowerhamlets.com/book/courts/st-johns-park" ++ ctaUrlPost := rfl
      rw [he]; exact containsStr_triple _ _ _
    rcases all_filtered_slots with _ | ⟨f0, fs⟩
    · exact absurd rfl hfs
    · have hsecF : ContainsStr
          (filteredSectionHtml ((new_slots.map slotId).toFinset) (f0 :: fs))
          (get_section_title (f0 :: fs) "All") :=
        (containsStr_triple _ _ _).appendRight _
      exact ⟨(((hsecF.appendRight _).appendLeft _).appendRight _).appendRight _,
        (((hc1.appendLeft _).appendLeft _).appendRight _).appendRight _,
        (((hc2.appendLeft _).appendLeft _).appendRight _).appendRight _⟩
  · intro hfs
    subst hfs
    have h0 : filteredPart ((new_slots.map slotId).toFinset) ([] : List Slot) = "" := rfl
    show (((emailHeader timestamp ++ newPart new_slots)
        ++ filteredPart ((new_slots.map slotId).toFinset) []) ++ allPart all_slots)
        ++ emailFooter
      = ((emailHeader timestamp ++ newPart new_slots) ++ allPart all_slots) ++ emailFooter
    rw [h0, strAppendEmpty]

/-- Witness for C6 at a concrete input with every section list
nonempty, discharging the nonemptiness hypotheses. -/
theorem format_email_structure_witness :
    ContainsStr
      (format_availability_email "t" [⟨"2024-01-08", "17:00", "court_1"⟩]
        [⟨"2024-01-08", "17:00", "court_1"⟩] (some [⟨"2024-01-08", "17:00", "court_1"⟩]))
      "Book Now" ∧
    ContainsStr
      (format_availability_email "t" [⟨"2024-01-08", "17:00", "court_1"⟩]
        [⟨"2024-01-08", "17:00", "court_1"⟩] (some [⟨"2024-01-08", "17:00", "court_1"⟩]))
      (get_section_title [⟨"2024-01-08", "17:00", "court_1"⟩] "New") ∧
    ContainsStr
      (format_availability_email "t" [⟨"2024-01-08", "17:00", "court_1"⟩]
        [⟨"2024-01-08", "17:00", "court_1"⟩] (some [⟨"2024-01-08", "17:00", "court_1"⟩]))
      "All Available Slots" :=
  ⟨((format_email_structure "t" [⟨"2024-01-08", "17:00", "court_1"⟩]
      [⟨"2024-01-08", "17:00", "court_1"⟩]
      (some [⟨"2024-01-08", "17:00", "court_1"⟩])).2.2.2.2.1 (by decide)).2.1,
    (format_email_structure "t" [⟨"2024-01-08", "17:00", "court_1"⟩]
      [⟨"2024-01-08", "17:00", "court_1"⟩]
      (some [⟨"2024-01-08", "17:00", "court_1"⟩])).2.2.1 (by decide),
    (format_email_structure "t" [⟨"2024-01-08", "17:00", "court_1"⟩]
      [⟨"2024-01-08", "17:00", "court_1"⟩]
      (some [⟨"2024-01-08", "17:00", "court_1"⟩])).2.2.2.1
      ⟨"2024-01-08", "17:00", "court_1"⟩ [] rfl⟩

/-- C8 counterexample: `"2024-1-6"` (6 January 2024, a Saturday) is
accepted by the code's `'%Y-%m-%d'` parsing, so `is_weekend` returns
`true`, yet the string is not an ISO `YYYY-MM-DD` date (its month and
day are not zero-padded) — refuting the claimed "if and only if the
string parses as an ISO YYYY-MM-DD date" in the only-if direction. -/
theorem is_weekend_iso_counterexample :
    is_weekend "2024-1-6" = true ∧ specIsoParse "2024-1-6" = none :=
  ⟨by decide, by decide⟩

/-- C8 (amended): `is_weekend` returns `true` exactly on the strings
accepted by Python's `'%Y-%m-%d'` parse (four year digits, one or two
month and day digits, a valid Gregorian date) whose weekday is
Saturday or Sunday, and `false` on everything else; every strict ISO
`YYYY-MM-DD` date is accepted by that parse with the same value, so on
ISO strings the original claim holds. -/
theorem is_weekend_characterization :
    (∀ s : String, is_weekend s = true ↔
      ∃ y m d, parse_ymd s = some (y, m, d) ∧
        (pyWeekday y m d = 5 ∨ pyWeekday y m d = 6)) ∧
    (∀ (s : String) (t : Nat × Nat × Nat), specIsoParse s = some t → parse_ymd s = some t) := by
  constructor
  · intro s
    unfold is_weekend
    cases hp : parse_ymd s with
    | none => simp [hp]
    | some t =>
      obtain ⟨y, m, d⟩ := t
      simp only [hp, Option.some.injEq, Prod.mk.injEq, Bool.or_eq_true, beq_iff_eq]
      constructor
      · intro hw
        exact ⟨y, m, d, ⟨rfl, rfl, rfl⟩, hw⟩
      · rintro ⟨y', m', d', ⟨rfl, rfl, rfl⟩, hw⟩
        exact hw
  · intro s t h
    unfold specIsoParse at h
    unfold parse_ymd
    cases hsp : pySplit s "-" with
    | nil => rw [hsp] at h; simp at h
    | cons p1 r1 =>
      cases r1 with
      | nil => rw [hsp] at h; simp at h
      | cons p2 r2 =>
        cases r2 with
        | nil => rw [hsp] at h; simp at h
        | cons p3 r3 =>
          cases r3 with
          | cons p4 r4 => rw [hsp] at h; simp at h
          | nil =>
            rw [hsp] at h
            dsimp only at h ⊢
            cases h1 : digitsVal? p1 with
            | none => rw [h1] at h; simp at h
            | some y =>
              cases h2 : digitsVal? p2 with
              | none => rw [h1, h2] at h; simp at h
              | some m =>
                cases h3 : digitsVal? p3 with
                | none => rw [h1, h2, h3] at h; simp at h
                | some d =>
                  rw [h1, h2, h3] at h
                  dsimp only at h ⊢
                  split at h
                  · next hcond =>
                    obtain ⟨c1, c2, c3, c4, c5, c6, c7, c8⟩ := hcond
                    rw [if_pos ⟨c1, by omega, by omega, c4, c5, c6, c7, c8⟩]
                    exact h
                  · simp at h

/-- Witness for C8 on a concrete ISO Saturday. -/
theorem is_weekend_characterization_witness :
    parse_ymd "2024-01-06" = some (2024, 1, 6) ∧ is_weekend "2024-01-06" = true := by
  constructor
  · exact is_weekend_characterization.2 "2024-01-06" (2024, 1, 6) (by decide)
  · exact (is_weekend_characterization.1 "2024-01-06").mpr
      ⟨2024, 1, 6, by decide, Or.inl (by decide)⟩

